import Mathlib

/-!
Shallow embedding of `app.py` (single-use password-reset tokens).

Modelling conventions:
* `datetime` values are abstract `Nat` instants measured in minutes, so
  `timedelta(minutes=m)` is `+ m` and the Python comparison
  `row.expires_at < datetime.utcnow()` is the strict `<` on `Nat`.
* The SQLAlchemy table `reset_tokens` is a list of records in insertion
  order; `query(...).filter(ResetToken.token == token).first()` is
  `List.find?` on that list, and the unique index on `token` makes an
  insert of a duplicate token fail (the transaction is rolled back, so the
  store is unchanged and the exception propagates: `create_token` returns
  `none` in that case).
* `secrets.token_urlsafe(32)` is modelled by passing the generated token
  string as an explicit argument (it is a nonempty string, fresh with
  overwhelming probability; theorems that need freshness assume it).
* Python `\s` is modelled by the six ASCII whitespace characters; the
  concrete inputs of the development are ASCII.
-/

namespace IgReset

/-- The six characters matched by Python's regex class `\s` on ASCII input. -/
def isPySpace (c : Char) : Bool :=
  c = ' ' || c = '\t' || c = '\n' || c = '\r' || c = '\x0b' || c = '\x0c'

/-- A character matched by the regex atom `[^@\s]`. -/
def atomChar (c : Char) : Bool :=
  !(c = '@') && !(isPySpace c)

/-- `re.match` of the pattern `[^@\s]+@[^@\s]+\.[^@\s]+` against `l`:
anchored at the start, unanchored at the end.  A match exists exactly when
some position `i ≥ 1` holds `'@'` with only `[^@\s]` characters before it,
some later position `j ≥ i + 2` holds `'.'` with only `[^@\s]` characters
strictly between `i` and `j`, and position `j + 1` holds an `[^@\s]`
character; the rest of `l` is unconstrained. -/
def emailMatchL (l : List Char) : Bool :=
  (List.range l.length).any fun i =>
    (List.range l.length).any fun j =>
      decide (1 ≤ i) && decide (i + 1 < j) && decide (j + 1 < l.length) &&
      decide (l.getD i ' ' = '@') && decide (l.getD j ' ' = '.') &&
      ((List.range i).all fun k => atomChar (l.getD k ' ')) &&
      (((l.take j).drop (i + 1)).all atomChar) &&
      atomChar (l.getD (j + 1) ' ')

/-- `valid_email(email)`: `EMAIL_RE.match(email) is not None`. -/
def valid_email (s : String) : Bool :=
  emailMatchL s.data

/-- Python `str.strip()` on a list of characters (ASCII whitespace). -/
def pyStripL (l : List Char) : List Char :=
  ((l.dropWhile isPySpace).reverse.dropWhile isPySpace).reverse

/-- Python `str.strip()`. -/
def pyStrip (s : String) : String :=
  ⟨pyStripL s.data⟩

/-- Python `str.lower()` (ASCII). -/
def pyLower (s : String) : String :=
  ⟨s.data.map Char.toLower⟩

/-- A row of the `reset_tokens` table. -/
structure ResetToken where
  email : String
  token : String
  created_at : Nat
  expires_at : Nat
  used : Bool
deriving DecidableEq, Repr

/-- The `reset_tokens` table, in insertion order. -/
abbrev Store := List ResetToken

/-- `get_token_row(token)`: first row whose `token` column equals `token`. -/
def get_token_row (s : Store) (tok : String) : Option ResetToken :=
  s.find? fun r => decide (r.token = tok)

/-- `create_token(email)`: insert a fresh row
`ResetToken(email=email.lower().strip(), token, created_at=now,
expires_at=now+RESET_EXPIRY_MINUTES, used=False)` and return the token.
`tok` is the generated random string, `now` the current instant and `m`
the configured `RESET_EXPIRY_MINUTES`.  The unique index on `token` makes
the commit fail on a duplicate, leaving the store unchanged (`none`). -/
def create_token (s : Store) (email tok : String) (now m : Nat) :
    Option (String × Store) :=
  if s.any fun r => decide (r.token = tok) then none
  else some (tok, s ++ [⟨pyStrip (pyLower email), tok, now, now + m, false⟩])

/-- Default of the `RESET_EXPIRY_MINUTES` environment option. -/
def resetExpiryMinutesDefault : Nat := 60

/-- `mark_used(token)`: set `used = True` on the first row matching `token`;
no-op when no row matches. -/
def mark_used : Store → String → Store
  | [], _ => []
  | r :: rs, tok =>
    if r.token = tok then { r with used := true } :: rs
    else r :: mark_used rs tok

/-- The arguments `get_reset` passes to `render_template_string`. -/
structure Page where
  message : Option String
  show_form : Bool
  email : Option String
deriving DecidableEq, Repr

/-- The GET handler of `RESET_PATH`.  `tok` is `request.args.get("token", "")`
and `now` is `datetime.utcnow()`.  The handler performs no store write, so
the embedding returns the store it was given as the second component. -/
def get_reset (s : Store) (tok : String) (now : Nat) : Page × Store :=
  if tok = "" then (⟨some "Missing token.", false, none⟩, s)
  else
    match get_token_row s tok with
    | none => (⟨some "Invalid token.", false, none⟩, s)
    | some row =>
      if row.used = true then
        (⟨some "This link has already been used.", false, none⟩, s)
      else if row.expires_at < now then
        (⟨some "This link has expired.", false, none⟩, s)
      else
        (⟨none, true, some row.email⟩, s)

/-- The POST handler of `RESET_PATH`: HTTP status and body, plus the store
after the request.  `tok` is the `token` query parameter and `pw` the
`password` form field, both defaulted to `""` when absent. -/
def post_reset (s : Store) (tok pw : String) (now : Nat) :
    (Nat × String) × Store :=
  if tok = "" ∨ pw = "" then ((400, "Missing token or password"), s)
  else
    match get_token_row s tok with
    | none => ((400, "Invalid or expired token"), s)
    | some row =>
      if row.used = true ∨ row.expires_at < now then
        ((400, "Invalid or expired token"), s)
      else
        ((200, "Password updated (demo). Connect this endpoint to your user DB to actually change passwords."),
         mark_used s tok)

/-- The spec's classification of a presented token, derived from the order
of checks in `get_reset`. -/
inductive Classification where
  | MISSING : Classification
  | USED : Classification
  | EXPIRED : Classification
  | VALID : String → Classification
deriving DecidableEq, Repr

/-- `evaluate(token)`: lookup and classify, in the order `get_reset` checks:
nonexistence, then `used`, then expiry. -/
def classify (s : Store) (tok : String) (now : Nat) : Classification :=
  match get_token_row s tok with
  | none => Classification.MISSING
  | some row =>
    if row.used = true then Classification.USED
    else if row.expires_at < now then Classification.EXPIRED
    else Classification.VALID row.email

/-- Every store-touching operation of the system, for stating invariants
over arbitrary operation sequences. -/
inductive Op where
  | opCreate : String → String → Nat → Nat → Op
  | opGet : String → Nat → Op
  | opPost : String → String → Nat → Op
  | opMark : String → Op

/-- The store after one operation (a failed insert leaves it unchanged). -/
def applyOp (s : Store) : Op → Store
  | Op.opCreate e t n m =>
    match create_token s e t n m with
    | none => s
    | some x => x.2
  | Op.opGet t n => (get_reset s t n).2
  | Op.opPost t p n => (post_reset s t p n).2
  | Op.opMark t => mark_used s t

/-- The store after a sequence of operations. -/
def applyOps (s : Store) (ops : List Op) : Store :=
  ops.foldl applyOp s

/-- The SMTP settings `send_reset_email` consults: `SMTP_HOST` and
`FROM_EMAIL` (`none` models an unset or empty environment variable). -/
structure SmtpConfig where
  host : Option String
  fromEmail : Option String

/-- `send_reset_email`: raises (`Except.error`) when `SMTP_HOST` or
`FROM_EMAIL` is unset, or when the relay rejects the message
(`relayAccepts = false`); otherwise the message is sent. -/
def send_reset_email (cfg : SmtpConfig) (relayAccepts : Bool) :
    Except String Unit :=
  if cfg.host = none ∨ cfg.fromEmail = none then
    Except.error "SMTP not configured. Set SMTP_HOST, SMTP_USER, SMTP_PASS, FROM_EMAIL in env."
  else if relayAccepts = true then Except.ok ()
  else Except.error "relay rejected the message"

/-- Replies the bot handler `receive_email` can send. -/
inductive BotReply where
  | invalidEmailPrompt : BotReply
  | smtpFailure : BotReply
  | linkSent : String → BotReply
deriving DecidableEq, Repr

/-- Conversation state returned by `receive_email`. -/
inductive ConvResult where
  | askEmail : ConvResult
  | endConv : ConvResult
deriving DecidableEq, Repr

/-- The bot handler `receive_email`: strips the message text, re-prompts
when `valid_email` fails, otherwise calls `create_token` and then
`send_reset_email` inside try/except.  `none` models the unhandled
exception of a failed insert.  Returns the reply, the conversation state
and the store after the turn. -/
def receive_email (s : Store) (text tok : String) (now m : Nat)
    (cfg : SmtpConfig) (relayAccepts : Bool) :
    Option (BotReply × ConvResult × Store) :=
  let t := pyStrip text
  if valid_email t = false then
    some (BotReply.invalidEmailPrompt, ConvResult.askEmail, s)
  else
    match create_token s t tok now m with
    | none => none
    | some x =>
      match send_reset_email cfg relayAccepts with
      | Except.error _ => some (BotReply.smtpFailure, ConvResult.endConv, x.2)
      | Except.ok _ => some (BotReply.linkSent t, ConvResult.endConv, x.2)

/-! ### Basic lemmas about the store operations -/

/-- Lookup in the empty table finds nothing. -/
theorem get_token_row_nil (tok : String) : get_token_row [] tok = none := rfl

/-- Lookup steps through a cons cell. -/
theorem get_token_row_cons (r : ResetToken) (rs : Store) (tok : String) :
    get_token_row (r :: rs) tok =
      if r.token = tok then some r else get_token_row rs tok := by
  simp only [get_token_row, List.find?]
  by_cases h : r.token = tok <;> simp [h]

/-- A successful lookup is unaffected by rows appended later. -/
theorem get_token_row_append_some (l : Store) {s : Store} {tok : String}
    {row : ResetToken} (h : get_token_row s tok = some row) :
    get_token_row (s ++ l) tok = some row := by
  induction s with
  | nil => simp [get_token_row_nil] at h
  | cons a as ih =>
    rw [get_token_row_cons] at h
    rw [List.cons_append, get_token_row_cons]
    by_cases ha : a.token = tok
    · simpa [ha] using h
    · rw [if_neg ha] at h ⊢
      exact ih h

/-- When the lookup fails, appending shifts it to the appended rows. -/
theorem get_token_row_append_none (l : Store) {s : Store} {tok : String}
    (h : get_token_row s tok = none) :
    get_token_row (s ++ l) tok = get_token_row l tok := by
  induction s with
  | nil => simp
  | cons a as ih =>
    rw [get_token_row_cons] at h
    by_cases ha : a.token = tok
    · simp [ha] at h
    · rw [if_neg ha] at h
      rw [List.cons_append, get_token_row_cons, if_neg ha]
      exact ih h

/-- A failed lookup means no row carries the token. -/
theorem not_any_of_get_token_row_none {s : Store} {tok : String}
    (h : get_token_row s tok = none) :
    (s.any fun r => decide (r.token = tok)) = false := by
  induction s with
  | nil => rfl
  | cons a as ih =>
    rw [get_token_row_cons] at h
    by_cases ha : a.token = tok
    · simp [ha] at h
    · rw [if_neg ha] at h
      simp [List.any_cons, ha, ih h]

/-- On a fresh token the insert of `create_token` succeeds and appends the
new row. -/
theorem create_token_of_fresh {s : Store} {tok : String} (email : String)
    (now m : Nat) (h : get_token_row s tok = none) :
    create_token s email tok now m =
      some (tok, s ++ [⟨pyStrip (pyLower email), tok, now, now + m, false⟩]) := by
  simp [create_token, not_any_of_get_token_row_none h]

/-- `mark_used` on a different token does not change what a lookup sees. -/
theorem get_token_row_mark_used_other {tok t : String} (s : Store)
    (h : tok ≠ t) :
    get_token_row (mark_used s t) tok = get_token_row s tok := by
  induction s with
  | nil => rfl
  | cons a as ih =>
    by_cases ha : a.token = t
    · have hne : ¬ a.token = tok := fun he => h (he.symm.trans ha)
      simp only [mark_used, if_pos ha]
      rw [get_token_row_cons, get_token_row_cons]
      rw [if_neg hne, if_neg hne]
    · simp only [mark_used, if_neg ha]
      rw [get_token_row_cons, get_token_row_cons, ih]

/-- `mark_used` on the looked-up token sets its `used` flag. -/
theorem get_token_row_mark_used_self (s : Store) (tok : String) :
    get_token_row (mark_used s tok) tok =
      (get_token_row s tok).map fun r => { r with used := true } := by
  induction s with
  | nil => rfl
  | cons a as ih =>
    by_cases ha : a.token = tok
    · simp only [mark_used, if_pos ha]
      rw [get_token_row_cons, get_token_row_cons, if_pos ha, if_pos ha]
      rfl
    · simp only [mark_used, if_neg ha]
      rw [get_token_row_cons, get_token_row_cons, if_neg ha, if_neg ha]
      exact ih

/-- Re-setting the `used` flag of an already-used row is the identity. -/
theorem resetToken_eta_used :
    ∀ {row : ResetToken}, row.used = true →
      ({ row with used := true } : ResetToken) = row
  | ⟨_, _, _, _, true⟩, _ => rfl
  | ⟨_, _, _, _, false⟩, h => nomatch h

/-- `mark_used` never unsets the flag of an already-used row. -/
theorem get_token_row_mark_used_stable {s : Store} {tok : String}
    {row : ResetToken} (h : get_token_row s tok = some row)
    (hu : row.used = true) (t : String) :
    get_token_row (mark_used s t) tok = some row := by
  by_cases ht : tok = t
  · subst ht
    rw [get_token_row_mark_used_self, h, Option.map_some', resetToken_eta_used hu]
  · rw [get_token_row_mark_used_other s ht]
    exact h

/-- The GET handler never writes the store. -/
theorem get_reset_state (s : Store) (tok : String) (now : Nat) :
    (get_reset s tok now).2 = s := by
  unfold get_reset
  split
  · rfl
  · split
    · rfl
    · split
      · rfl
      · split <;> rfl

/-- The POST handler either leaves the store alone or marks its token used. -/
theorem post_reset_state (s : Store) (tok pw : String) (now : Nat) :
    (post_reset s tok pw now).2 = s ∨
      (post_reset s tok pw now).2 = mark_used s tok := by
  unfold post_reset
  split
  · exact Or.inl rfl
  · split
    · exact Or.inl rfl
    · split
      · exact Or.inl rfl
      · exact Or.inr rfl

/-- No single operation unsets the `used` flag seen by a lookup. -/
theorem used_stable_op {s : Store} {tok : String} {row : ResetToken}
    (h : get_token_row s tok = some row) (hu : row.used = true) (op : Op) :
    get_token_row (applyOp s op) tok = some row := by
  cases op with
  | opCreate e t n m =>
    simp only [applyOp]
    cases hc : create_token s e t n m with
    | none => exact h
    | some x =>
      unfold create_token at hc
      split at hc
      · exact absurd hc (by simp)
      · cases hc
        exact get_token_row_append_some _ h
  | opGet t n =>
    simp only [applyOp]
    rw [get_reset_state]
    exact h
  | opPost t p n =>
    simp only [applyOp]
    rcases post_reset_state s t p n with h2 | h2 <;> rw [h2]
    · exact h
    · exact get_token_row_mark_used_stable h hu t
  | opMark t =>
    simp only [applyOp]
    exact get_token_row_mark_used_stable h hu t

/-- No sequence of operations unsets the `used` flag seen by a lookup. -/
theorem used_stable_ops {s : Store} {tok : String} {row : ResetToken}
    (h : get_token_row s tok = some row) (hu : row.used = true)
    (ops : List Op) :
    get_token_row (applyOps s ops) tok = some row := by
  induction ops generalizing s with
  | nil => exact h
  | cons op rest ih =>
    rw [applyOps, List.foldl_cons]
    exact ih (used_stable_op h hu op)

/-- The GET page for a used token. -/
theorem get_reset_of_used {s : Store} {tok : String} {row : ResetToken}
    (now : Nat) (htok : tok ≠ "") (h : get_token_row s tok = some row)
    (hu : row.used = true) :
    (get_reset s tok now).1 =
      ⟨some "This link has already been used.", false, none⟩ := by
  simp only [get_reset, if_neg htok, h, if_pos hu]

/-- The POST rejection for a used token. -/
theorem post_reset_of_used {s : Store} {tok pw : String} {row : ResetToken}
    (now : Nat) (htok : tok ≠ "") (hpw : pw ≠ "")
    (h : get_token_row s tok = some row) (hu : row.used = true) :
    (post_reset s tok pw now).1 = (400, "Invalid or expired token") := by
  simp only [post_reset, if_neg (not_or.mpr ⟨htok, hpw⟩), h, if_pos (Or.inl hu)]

/-! ### Claim theorems -/

/-- C10: `valid_email` applies the pattern with `re.match`, anchored at the
start but not at the end, so it accepts the plain address `"a@b.c"` and
also accepts `"a@b.c junk"`, an input that contains whitespace after a
valid email prefix and is therefore not itself a well-formed address. -/
theorem C10_match_accepts_trailing_junk :
    valid_email "a@b.c" = true ∧
    valid_email "a@b.c junk" = true ∧
    ("a@b.c junk".data.any fun c => isPySpace c) = true := by decide

/-- C8: a POST whose `token` query parameter or `password` form field is
empty (or absent, which Flask defaults to `""`) is answered with status
400 and the fixed body `"Missing token or password"`, and the store is
left unchanged; the response is a constant, independent of the store, so
no stored record is consulted. -/
theorem C8_post_missing_fields (s : Store) (tok pw : String) (now : Nat)
    (h : tok = "" ∨ pw = "") :
    (post_reset s tok pw now).1 = (400, "Missing token or password") ∧
    (post_reset s tok pw now).2 = s := by
  unfold post_reset
  rw [if_pos h]
  exact ⟨rfl, rfl⟩

/-- Witness for C8 at a nonempty store, token `"t"` and empty password. -/
theorem C8_post_missing_fields_witness :
    (post_reset [⟨"e", "t", 0, 5, false⟩] "t" "" 3).1 =
      (400, "Missing token or password") ∧
    (post_reset [⟨"e", "t", 0, 5, false⟩] "t" "" 3).2 =
      [⟨"e", "t", 0, 5, false⟩] :=
  C8_post_missing_fields [⟨"e", "t", 0, 5, false⟩] "t" "" 3 (Or.inr rfl)

/-- C3: with a nonempty presented token, `get_reset` classifies in the
order: nonexistent record (`MISSING`, page "Invalid token."), then the
`used` flag (`USED`), then expiry (`EXPIRED`); in particular a used row is
reported `USED` whatever its expiry, so a used-and-expired token is
`USED`, and only an unused row past expiry is `EXPIRED`.  The GET path
returns the store unchanged. -/
theorem C3_evaluate_order_and_purity (s : Store) (tok : String) (now : Nat)
    (htok : tok ≠ "") :
    (get_reset s tok now).2 = s ∧
    (get_token_row s tok = none →
      classify s tok now = Classification.MISSING ∧
      (get_reset s tok now).1 = ⟨some "Invalid token.", false, none⟩) ∧
    (∀ row, get_token_row s tok = some row → row.used = true →
      classify s tok now = Classification.USED ∧
      (get_reset s tok now).1 =
        ⟨some "This link has already been used.", false, none⟩) ∧
    (∀ row, get_token_row s tok = some row → row.used = false →
      row.expires_at < now →
      classify s tok now = Classification.EXPIRED ∧
      (get_reset s tok now).1 = ⟨some "This link has expired.", false, none⟩) := by
  refine ⟨get_reset_state s tok now, ?_, ?_, ?_⟩
  · intro hnone
    constructor
    · simp [classify, hnone]
    · simp only [get_reset, if_neg htok, hnone]
  · intro row hrow hu
    exact ⟨by simp [classify, hrow, hu], get_reset_of_used now htok hrow hu⟩
  · intro row hrow hu hexp
    constructor
    · simp [classify, hrow, hu, hexp]
    · simp only [get_reset, if_neg htok, hrow, hu, hexp]
      simp

/-- Witness for C3 on a token that is both used and past expiry: it is
classified `USED`, not `EXPIRED`. -/
theorem C3_evaluate_order_and_purity_witness :
    classify [⟨"e", "t", 0, 3, true⟩] "t" 10 = Classification.USED ∧
    (get_reset [⟨"e", "t", 0, 3, true⟩] "t" 10).1 =
      ⟨some "This link has already been used.", false, none⟩ :=
  (C3_evaluate_order_and_purity [⟨"e", "t", 0, 3, true⟩] "t" 10
      (by decide)).2.2.1 ⟨"e", "t", 0, 3, true⟩ (by decide) rfl

/-- C4: whenever the classification of the presented token is not `VALID`
(missing record, used, or expired), the POST handler answers with status
400 and returns the store exactly as it was — in particular `mark_used`
is never reached. -/
theorem C4_post_reject_no_mutation (s : Store) (tok pw : String) (now : Nat)
    (h : ∀ e, classify s tok now ≠ Classification.VALID e) :
    ((post_reset s tok pw now).1).1 = 400 ∧ (post_reset s tok pw now).2 = s := by
  unfold post_reset
  split
  · exact ⟨rfl, rfl⟩
  · cases hrow : get_token_row s tok with
    | none => simp [hrow]
    | some row =>
      by_cases hu : row.used = true
      · simp [hrow, hu]
      · by_cases hexp : row.expires_at < now
        · simp [hrow, hu, hexp]
        · exact absurd
            (show classify s tok now = Classification.VALID row.email by
              simp [classify, hrow, hu, hexp])
            (h row.email)

/-- Witness for C4 on a token with no record: status 400, store intact. -/
theorem C4_post_reject_no_mutation_witness :
    ((post_reset [] "x" "p" 0).1).1 = 400 ∧ (post_reset [] "x" "p" 0).2 = [] :=
  C4_post_reject_no_mutation [] "x" "p" 0 (fun _ he => by
    simp [classify, get_token_row_nil] at he)

/-- Counterexample to C2 as stated: at the instant `now = expires_at`
(here both 5) an unused token is still redeemable — the GET handler
renders the form, the POST handler answers 200 and marks the row used —
even though `now < expires_at` is false, refuting the claimed
"strictly less than" boundary. -/
theorem C2_boundary_counterexample :
    ((get_reset [⟨"u@x.c", "t", 0, 5, false⟩] "t" 5).1).show_form = true ∧
    ((post_reset [⟨"u@x.c", "t", 0, 5, false⟩] "t" "pw" 5).1).1 = 200 ∧
    get_token_row ((post_reset [⟨"u@x.c", "t", 0, 5, false⟩] "t" "pw" 5).2) "t" =
      some ⟨"u@x.c", "t", 0, 5, true⟩ ∧
    ¬ (5 < 5) := by decide

/-- C2 (amended): for a stored record, with the token and password fields
nonempty, the token is redeemable — GET renders the form and POST answers
200 — iff `used = false` and the current time is at most `expires_at`
(the code rejects only when `expires_at < now`, so the boundary instant
`now = expires_at` is still accepted); on success the POST marks the row
used. -/
theorem C2_redeemable_iff (s : Store) (tok pw : String) (now : Nat)
    (row : ResetToken) (htok : tok ≠ "") (hpw : pw ≠ "")
    (hrow : get_token_row s tok = some row) :
    (((get_reset s tok now).1).show_form = true ↔
      row.used = false ∧ now ≤ row.expires_at) ∧
    (((post_reset s tok pw now).1).1 = 200 ↔
      row.used = false ∧ now ≤ row.expires_at) ∧
    (row.used = false ∧ now ≤ row.expires_at →
      get_token_row ((post_reset s tok pw now).2) tok =
        some { row with used := true }) := by
  have hnot : ¬ (tok = "" ∨ pw = "") := not_or.mpr ⟨htok, hpw⟩
  refine ⟨?_, ?_, ?_⟩
  · simp only [get_reset, if_neg htok, hrow]
    by_cases hu : row.used = true
    · simp [hu]
    · by_cases hexp : row.expires_at < now
      · simp [hu, hexp, Nat.not_le.mpr hexp]
      · have hu0 : row.used = false := by
          cases hb : row.used
          · rfl
          · exact absurd hb hu
        simp [hu0, hexp, Nat.not_lt.mp hexp]
  · simp only [post_reset, if_neg hnot, hrow]
    by_cases hu : row.used = true
    · simp [hu]
    · by_cases hexp : row.expires_at < now
      · simp [hu, hexp, Nat.not_le.mpr hexp]
      · have hu0 : row.used = false := by
          cases hb : row.used
          · rfl
          · exact absurd hb hu
        simp [hu0, hexp, Nat.not_lt.mp hexp]
  · rintro ⟨hu0, hle⟩
    have hcond : ¬ (row.used = true ∨ row.expires_at < now) := by
      rintro (h1 | h2)
      · rw [hu0] at h1
        exact absurd h1 (by decide)
      · exact absurd h2 (Nat.not_lt.mpr hle)
    have hsnd : (post_reset s tok pw now).2 = mark_used s tok := by
      simp only [post_reset, if_neg hnot, hrow, if_neg hcond]
    rw [hsnd, get_token_row_mark_used_self, hrow, Option.map_some']

/-- Witness for the amended C2: a fresh unused token redeemed at time 3,
well before expiry 10, ends up stored with `used = true`. -/
theorem C2_redeemable_iff_witness :
    get_token_row ((post_reset [⟨"e", "t", 0, 10, false⟩] "t" "p" 3).2) "t" =
      some { (⟨"e", "t", 0, 10, false⟩ : ResetToken) with used := true } :=
  (C2_redeemable_iff [⟨"e", "t", 0, 10, false⟩] "t" "p" 3
      ⟨"e", "t", 0, 10, false⟩ (by decide) (by decide) (by decide)).2.2
    ⟨rfl, by decide⟩

/-- C5: for a syntactically valid email and a fresh nonempty generated
token, `create_token` succeeds and the token string it returns classifies
as `VALID` immediately afterwards, bound to the normalized
(lower-cased, trimmed) form of that email, and the GET page renders the
password form for that address. -/
theorem C5_issue_then_evaluate_valid (s : Store) (email tok : String)
    (now m : Nat) (hv : valid_email email = true) (htok : tok ≠ "")
    (hfresh : get_token_row s tok = none) :
    ∃ s', create_token s email tok now m = some (tok, s') ∧
      classify s' tok now = Classification.VALID (pyStrip (pyLower email)) ∧
      ((get_reset s' tok now).1).show_form = true ∧
      ((get_reset s' tok now).1).email = some (pyStrip (pyLower email)) := by
  have hrow : get_token_row
      (s ++ [⟨pyStrip (pyLower email), tok, now, now + m, false⟩]) tok =
      some ⟨pyStrip (pyLower email), tok, now, now + m, false⟩ := by
    rw [get_token_row_append_none _ hfresh, get_token_row_cons, if_pos rfl]
  have hexp : ¬ (now + m < now) := by omega
  refine ⟨s ++ [⟨pyStrip (pyLower email), tok, now, now + m, false⟩],
    create_token_of_fresh email now m hfresh, ?_, ?_, ?_⟩
  · simp [classify, hrow, hexp]
  · simp [get_reset, if_neg htok, hrow, hexp]
  · simp [get_reset, if_neg htok, hrow, hexp]

/-- Witness for C5: issuing for `"u@e.c"` on the empty store. -/
theorem C5_issue_then_evaluate_valid_witness :
    ∃ s', create_token [] "u@e.c" "t" 0 60 = some ("t", s') ∧
      classify s' "t" 0 = Classification.VALID (pyStrip (pyLower "u@e.c")) ∧
      ((get_reset s' "t" 0).1).show_form = true ∧
      ((get_reset s' "t" 0).1).email = some (pyStrip (pyLower "u@e.c")) :=
  C5_issue_then_evaluate_valid [] "u@e.c" "t" 0 60 (by decide) (by decide) rfl

/-- Counterexample to C6 as stated: `create_token` itself performs no
email validation — on the input `"not-an-email"`, which `valid_email`
rejects, it still writes a record. -/
theorem C6_create_token_does_not_validate :
    valid_email "not-an-email" = false ∧
    create_token [] "not-an-email" "t" 0 60 =
      some ("t", [⟨"not-an-email", "t", 0, 60, false⟩]) := by decide

/-- C6 (amended): the syntactic email check guards issuance in the intake
handler, not in `create_token`: `receive_email` validates the stripped
message text with `valid_email` before calling `create_token`, and for
every input failing the pattern it re-prompts, stays in the
email-collection state, and leaves the store unchanged (no record is
created). -/
theorem C6_intake_validates_before_issue (s : Store) (text tok : String)
    (now m : Nat) (cfg : SmtpConfig) (relayAccepts : Bool)
    (hbad : valid_email (pyStrip text) = false) :
    receive_email s text tok now m cfg relayAccepts =
      some (BotReply.invalidEmailPrompt, ConvResult.askEmail, s) := by
  simp [receive_email, hbad]

/-- Witness for the amended C6 on the input `"not-an-email"`. -/
theorem C6_intake_validates_before_issue_witness :
    receive_email [] "not-an-email" "t" 0 60 ⟨none, none⟩ true =
      some (BotReply.invalidEmailPrompt, ConvResult.askEmail, []) :=
  C6_intake_validates_before_issue [] "not-an-email" "t" 0 60 ⟨none, none⟩
    true (by decide)

/-- C7: on a fresh generated token, the record written by `create_token`
stores the email lower-cased and stripped, carries the token itself,
has `used = false`, `created_at = now` and
`expires_at = created_at + m` for the configured window `m`
(`RESET_EXPIRY_MINUTES`, whose default is 60 minutes), and the returned
token string equals the stored `token` field. -/
theorem C7_create_token_postconditions (s : Store) (email tok : String)
    (now m : Nat) (hfresh : get_token_row s tok = none) :
    ∃ s' row, create_token s email tok now m = some (row.token, s') ∧
      get_token_row s' row.token = some row ∧
      row.email = pyStrip (pyLower email) ∧
      row.token = tok ∧
      row.used = false ∧
      row.created_at = now ∧
      row.expires_at = row.created_at + m ∧
      resetExpiryMinutesDefault = 60 := by
  refine ⟨s ++ [⟨pyStrip (pyLower email), tok, now, now + m, false⟩],
    ⟨pyStrip (pyLower email), tok, now, now + m, false⟩,
    create_token_of_fresh email now m hfresh, ?_, rfl, rfl, rfl, rfl, rfl, rfl⟩
  rw [get_token_row_append_none _ hfresh, get_token_row_cons, if_pos rfl]

/-- Witness for C7 with email `"  User@Ex.COM "`, stored normalized. -/
theorem C7_create_token_postconditions_witness :
    ∃ s' row, create_token [] "  User@Ex.COM " "t" 5 60 = some (row.token, s') ∧
      get_token_row s' row.token = some row ∧
      row.email = pyStrip (pyLower "  User@Ex.COM ") ∧
      row.token = "t" ∧
      row.used = false ∧
      row.created_at = 5 ∧
      row.expires_at = row.created_at + 60 ∧
      resetExpiryMinutesDefault = 60 :=
  C7_create_token_postconditions [] "  User@Ex.COM " "t" 5 60 rfl

/-- C9: when the email send fails after the token was created — `SMTP_HOST`
or `FROM_EMAIL` unset, or the relay rejecting the message — the intake
handler replies with the single failure message and ends the dialogue
(no retry), while the already-created record remains stored, unused, and
still redeemable (`VALID`, GET renders the form). -/
theorem C9_delivery_failure_keeps_token (s : Store) (text tok : String)
    (now m : Nat) (cfg : SmtpConfig) (relayAccepts : Bool)
    (hv : valid_email (pyStrip text) = true) (htok : tok ≠ "")
    (hfresh : get_token_row s tok = none)
    (hfail : cfg.host = none ∨ cfg.fromEmail = none ∨ relayAccepts = false) :
    ∃ s' row,
      receive_email s text tok now m cfg relayAccepts =
        some (BotReply.smtpFailure, ConvResult.endConv, s') ∧
      get_token_row s' tok = some row ∧
      row.used = false ∧
      classify s' tok now = Classification.VALID row.email ∧
      ((get_reset s' tok now).1).show_form = true := by
  obtain ⟨msg, hsend⟩ :
      ∃ msg, send_reset_email cfg relayAccepts = Except.error msg := by
    unfold send_reset_email
    rcases hfail with h1 | h2 | h3
    · rw [if_pos (Or.inl h1)]
      exact ⟨_, rfl⟩
    · rw [if_pos (Or.inr h2)]
      exact ⟨_, rfl⟩
    · by_cases hc : cfg.host = none ∨ cfg.fromEmail = none
      · rw [if_pos hc]
        exact ⟨_, rfl⟩
      · rw [if_neg hc, if_neg (by rw [h3]; exact Bool.false_ne_true)]
        exact ⟨_, rfl⟩
  have hcreate := create_token_of_fresh (s := s) (pyStrip text) now m hfresh
  have hrow : get_token_row
      (s ++ [⟨pyStrip (pyLower (pyStrip text)), tok, now, now + m, false⟩]) tok =
      some ⟨pyStrip (pyLower (pyStrip text)), tok, now, now + m, false⟩ := by
    rw [get_token_row_append_none _ hfresh, get_token_row_cons, if_pos rfl]
  have hexp : ¬ (now + m < now) := by omega
  refine ⟨s ++ [⟨pyStrip (pyLower (pyStrip text)), tok, now, now + m, false⟩],
    ⟨pyStrip (pyLower (pyStrip text)), tok, now, now + m, false⟩, ?_, hrow,
    rfl, ?_, ?_⟩
  · simp only [receive_email, hv, hcreate, hsend]
    simp
  · simp [classify, hrow, hexp]
  · simp [get_reset, if_neg htok, hrow, hexp]

/-- Witness for C9: SMTP host unset, so the send fails after creation. -/
theorem C9_delivery_failure_keeps_token_witness :
    ∃ s' row,
      receive_email [] "u@e.c" "t" 0 60 ⟨none, some "f@x.c"⟩ true =
        some (BotReply.smtpFailure, ConvResult.endConv, s') ∧
      get_token_row s' "t" = some row ∧
      row.used = false ∧
      classify s' "t" 0 = Classification.VALID row.email ∧
      ((get_reset s' "t" 0).1).show_form = true :=
  C9_delivery_failure_keeps_token [] "u@e.c" "t" 0 60 ⟨none, some "f@x.c"⟩
    true (by decide) (by decide) rfl (Or.inl rfl)

/-- C1: once a POST redemption succeeds (status 200) for a token, the
`used` flag never reverts: after any further sequence of system
operations (token creations, GETs, POSTs, mark-used calls), the token's
row still reads `used = true`, every GET renders the "already used" page,
and every POST with a nonempty password is rejected with 400 — never
`VALID` again. -/
theorem C1_used_never_reverts (s : Store) (tok pw : String) (now : Nat)
    (hsucc : ((post_reset s tok pw now).1).1 = 200) :
    ∀ (ops : List Op) (now' : Nat) (pw' : String), pw' ≠ "" →
      ∃ row,
        get_token_row (applyOps ((post_reset s tok pw now).2) ops) tok =
          some row ∧
        row.used = true ∧
        (get_reset (applyOps ((post_reset s tok pw now).2) ops) tok now').1 =
          ⟨some "This link has already been used.", false, none⟩ ∧
        (post_reset (applyOps ((post_reset s tok pw now).2) ops) tok pw' now').1 =
          (400, "Invalid or expired token") := by
  intro ops now' pw' hpw'
  by_cases hc : tok = "" ∨ pw = ""
  · simp only [post_reset, if_pos hc] at hsucc
    exact absurd hsucc (by decide)
  · cases hrow : get_token_row s tok with
    | none =>
      simp only [post_reset, if_neg hc, hrow] at hsucc
      exact absurd hsucc (by decide)
    | some row0 =>
      by_cases hcond : row0.used = true ∨ row0.expires_at < now
      · simp only [post_reset, if_neg hc, hrow, if_pos hcond] at hsucc
        exact absurd hsucc (by decide)
      · have hsnd : (post_reset s tok pw now).2 = mark_used s tok := by
          simp only [post_reset, if_neg hc, hrow, if_neg hcond]
        have htok : tok ≠ "" := fun h => hc (Or.inl h)
        have hrow' : get_token_row (mark_used s tok) tok =
            some { row0 with used := true } := by
          rw [get_token_row_mark_used_self, hrow, Option.map_some']
        have hstable := used_stable_ops hrow' rfl ops
        refine ⟨{ row0 with used := true }, ?_, rfl, ?_, ?_⟩
        · rw [hsnd]
          exact hstable
        · rw [hsnd]
          exact get_reset_of_used now' htok hstable rfl
        · rw [hsnd]
          exact post_reset_of_used now' htok hpw' hstable rfl

/-- Witness for C1: redeem token `"t"` at time 0, then attempt another
POST redemption at time 3 and inspect the store at time 20. -/
theorem C1_used_never_reverts_witness :
    ∃ row,
      get_token_row (applyOps ((post_reset [⟨"e", "t", 0, 9, false⟩] "t" "p" 0).2)
        [Op.opPost "t" "q" 3]) "t" = some row ∧
      row.used = true ∧
      (get_reset (applyOps ((post_reset [⟨"e", "t", 0, 9, false⟩] "t" "p" 0).2)
        [Op.opPost "t" "q" 3]) "t" 20).1 =
        ⟨some "This link has already been used.", false, none⟩ ∧
      (post_reset (applyOps ((post_reset [⟨"e", "t", 0, 9, false⟩] "t" "p" 0).2)
        [Op.opPost "t" "q" 3]) "t" "q" 20).1 = (400, "Invalid or expired token") :=
  C1_used_never_reverts [⟨"e", "t", 0, 9, false⟩] "t" "p" 0 (by decide)
    [Op.opPost "t" "q" 3] 20 "q" (by decide)

end IgReset
